import Mathlib

/-!
# Verification of the finautapi-client OAuth2 token lifecycle

Shallow embedding of `finautapi_client/auth.py` (OAuth2Handler, BasicAuthHandler)
and of `FinAutAPIClient._handle_response_errors` from `finautapi_client/client.py`.

Modelling choices:
* Time is an integer number of seconds (`Int`); `datetime.now()` is a parameter `now`.
* JSON leaf values that the handler can receive are modelled by `PyVal`
  (strings and integers).  Python truthiness of these values matters because
  `_needs_refresh` tests `not self._access_token`.
* The single network POST performed by `_refresh_token` is modelled by passing
  the token endpoint's behaviour (`TokenEndpointResult`) as an explicit argument;
  functions additionally return the number of network calls they performed.
* Exceptions are modelled by outcome inductives.  `requests.exceptions.RequestException`
  (raised by `raise_for_status` and by network/transport failures) and
  `KeyError` / `ValueError` are both converted by the source into
  `AuthenticationError`; a `TypeError` escaping `timedelta(seconds=...)` is
  caught by neither handler and is modelled as a distinct `uncaughtTypeError`
  outcome.
-/

/-- A JSON leaf value as the Python code can receive it (string or integer). -/
inductive PyVal where
  | vstr (s : String)
  | vint (n : Int)
deriving DecidableEq, Repr

/-- Python truthiness of a `PyVal`: the empty string and the integer 0 are falsy. -/
def PyVal.truthy : PyVal → Bool
  | .vstr s => !s.isEmpty
  | .vint n => n != 0

/-- Python `str()` of a `PyVal`, as used by the f-string `f"Bearer {token}"`. -/
def PyVal.pyStr : PyVal → String
  | .vstr s => s
  | .vint n => toString n

/-- Python truthiness of an `Optional` value: `None` is falsy, otherwise the
value's own truthiness decides. -/
def pyTruthy : Option PyVal → Bool
  | none => false
  | some v => v.truthy

/-- The mutable token state of `OAuth2Handler`:
`_access_token : Optional[str]` (modelled as `Option PyVal` because
`_refresh_token` stores `token_data['access_token']` unvalidated) and
`_token_expires : Optional[datetime]` (as absolute seconds). -/
structure TokenState where
  access_token : Option PyVal
  token_expires : Option Int
deriving DecidableEq, Repr

/-- `self._refresh_buffer = 60` (auth.py line 27). -/
def refresh_buffer : Int := 60

/-- `OAuth2Handler._needs_refresh` (auth.py lines 44-50):
`if not self._access_token or not self._token_expires: return True` —
note that a stored empty-string token is falsy, and a `datetime` object is
always truthy — then `datetime.now() >= (self._token_expires - buffer_time)`. -/
def OAuth2Handler.needs_refresh (st : TokenState) (now : Int) : Bool :=
  if !pyTruthy st.access_token || st.token_expires.isNone then
    true
  else
    match st.token_expires with
    | some expires => decide (now ≥ expires - refresh_buffer)
    | none => true

/-- Outcome of one POST to the token endpoint: a transport-level failure
(timeout, connection refused, DNS failure — all raise a
`requests.exceptions.RequestException`), or a response with a status code and
a body.  `body = none` means the body is not parseable as JSON
(`response.json()` raises); otherwise the body is a JSON object given by its
key/value entries (keys assumed distinct, as produced by a JSON parser). -/
inductive TokenEndpointResult where
  | netFailure
  | response (status : Nat) (body : Option (List (String × PyVal)))
deriving DecidableEq, Repr

/-- `requests.Response.raise_for_status` raises `HTTPError` exactly for
status codes in [400, 600). -/
def raise_for_status (status : Nat) : Bool :=
  decide (400 ≤ status ∧ status < 600)

/-- How one call to `OAuth2Handler._refresh_token` terminates. -/
inductive RefreshOutcome where
  | ok
  | authError
  | uncaughtTypeError
deriving DecidableEq, Repr

/-- `OAuth2Handler._refresh_token` (auth.py lines 52-86).  Mirrors the source
line by line:
* a `RequestException` from the POST or from `raise_for_status`, a
  `ValueError` from `response.json()`, and a `KeyError` from
  `token_data['access_token']` are each converted to `AuthenticationError`,
  and in all of these cases no assignment to `self` has happened yet;
* on a present `access_token` key, `self._access_token` is assigned first;
  then `expires_in = token_data.get('expires_in', 3600)` and
  `self._token_expires = datetime.now() + timedelta(seconds=expires_in)`.
  If the `expires_in` value is a string, `timedelta` raises `TypeError`,
  which neither `except` clause catches: `_access_token` has already been
  overwritten while `_token_expires` is left as it was. -/
def OAuth2Handler.refresh_token (st : TokenState) (now : Int)
    (r : TokenEndpointResult) : RefreshOutcome × TokenState :=
  match r with
  | .netFailure => (.authError, st)
  | .response status body =>
    if raise_for_status status then
      (.authError, st)
    else
      match body with
      | none => (.authError, st)
      | some token_data =>
        match token_data.lookup "access_token" with
        | none => (.authError, st)
        | some tok =>
          match token_data.lookup "expires_in" with
          | none => (.ok, ⟨some tok, some (now + 3600)⟩)
          | some (.vint expires_in) => (.ok, ⟨some tok, some (now + expires_in)⟩)
          | some (.vstr _) => (.uncaughtTypeError, { st with access_token := some tok })

/-- How one call to `OAuth2Handler.get_headers` terminates. -/
inductive HeaderOutcome where
  | header (v : String)
  | authError
  | uncaughtTypeError
deriving DecidableEq, Repr

/-- `f"Bearer {self.access_token}"` (auth.py line 96); Python would print
`None` for an absent token, but that branch is unreachable from `get_headers`. -/
def bearerHeader : Option PyVal → String
  | some v => "Bearer " ++ v.pyStr
  | none => "Bearer None"

/-- `OAuth2Handler.get_headers` together with the `access_token` property
(auth.py lines 29-42 and 88-97): refresh when `_needs_refresh()`, then build
the Authorization header from the stored token.  The third component counts
the network calls to the token endpoint made by this call (0 or 1). -/
def OAuth2Handler.get_headers (st : TokenState) (now : Int)
    (r : TokenEndpointResult) : HeaderOutcome × TokenState × Nat :=
  if OAuth2Handler.needs_refresh st now then
    match OAuth2Handler.refresh_token st now r with
    | (.ok, st1) => (.header (bearerHeader st1.access_token), st1, 1)
    | (.authError, st1) => (.authError, st1, 1)
    | (.uncaughtTypeError, st1) => (.uncaughtTypeError, st1, 1)
  else
    (.header (bearerHeader st.access_token), st, 0)

/-- `OAuth2Handler.invalidate_token` (auth.py lines 99-102). -/
def OAuth2Handler.invalidate_token (_st : TokenState) : TokenState :=
  ⟨none, none⟩

/-! ## Client error dispatch (`client.py`) -/

/-- The exception raised by `FinAutAPIClient._handle_response_errors`
(client.py lines 149-186); constructors mirror the exception classes of
`exceptions.py`, carrying the status code where the source passes it. -/
inductive RaisedError where
  | authenticationError (status : Nat)
  | permissionDeniedError (status : Nat)
  | notFoundError (status : Nat)
  | validationError (status : Nat)
  | rateLimitError
  | serverError (status : Nat)
  | finAutAPIException (status : Nat)
deriving DecidableEq, Repr

/-- `FinAutAPIClient._handle_response_errors` (client.py lines 149-186):
status below 400 returns; 401 invalidates the OAuth2 handler's token and
raises `AuthenticationError`; then the 403/404/422/429/>=500 dispatch, with
the base `FinAutAPIException` for any other status >= 400.  Returns the
raised exception (or `none`) and the resulting token state of `self.auth`. -/
def FinAutAPIClient.handle_response_errors (st : TokenState) (status : Nat) :
    Option RaisedError × TokenState :=
  if status < 400 then
    (none, st)
  else if status = 401 then
    (some (.authenticationError status), OAuth2Handler.invalidate_token st)
  else if status = 403 then
    (some (.permissionDeniedError status), st)
  else if status = 404 then
    (some (.notFoundError status), st)
  else if status = 422 then
    (some (.validationError status), st)
  else if status = 429 then
    (some .rateLimitError, st)
  else if 500 ≤ status then
    (some (.serverError status), st)
  else
    (some (.finAutAPIException status), st)

/-! ## Basic auth (`auth.py` lines 105-126) -/

/-- UTF-8 encoding of one character, as `str.encode()` produces. -/
def utf8Bytes (c : Char) : List Nat :=
  let n := c.toNat
  if n < 128 then [n]
  else if n < 2048 then [192 + n / 64, 128 + n % 64]
  else if n < 65536 then [224 + n / 4096, 128 + (n / 64) % 64, 128 + n % 64]
  else [240 + n / 262144, 128 + (n / 4096) % 64, 128 + (n / 64) % 64, 128 + n % 64]

/-- UTF-8 bytes of a string (`credentials.encode()`). -/
def strBytes (s : String) : List Nat :=
  (s.data.map utf8Bytes).flatten

/-- The standard base64 alphabet used by `base64.b64encode`. -/
def base64Alphabet : String :=
  "ABCDEFGHIJKLMNOPQRSTUVWXYZabcdefghijklmnopqrstuvwxyz0123456789+/"

/-- The base64 digit for a 6-bit value. -/
def base64Char (n : Nat) : Char :=
  base64Alphabet.toList.getD n (Char.ofNat 61)

/-- `base64.b64encode` on a byte list, with `=` padding. -/
def b64encodeBytes : List Nat → List Char
  | [] => []
  | [b1] =>
      [base64Char (b1 / 4), base64Char (b1 % 4 * 16), Char.ofNat 61, Char.ofNat 61]
  | [b1, b2] =>
      [base64Char (b1 / 4), base64Char (b1 % 4 * 16 + b2 / 16),
       base64Char (b2 % 16 * 4), Char.ofNat 61]
  | b1 :: b2 :: b3 :: rest =>
      base64Char (b1 / 4) :: base64Char (b1 % 4 * 16 + b2 / 16)
        :: base64Char (b2 % 16 * 4 + b3 / 64) :: base64Char (b3 % 64)
        :: b64encodeBytes rest

/-- `BasicAuthHandler.get_headers` (auth.py lines 119-126): the value bound to
the `Authorization` key — `"Basic "` followed by the base64 of
`f"{username}:{password}".encode()`.  Pure: no network call, no state. -/
def BasicAuthHandler.get_headers (username password : String) : String :=
  "Basic " ++ String.mk (b64encodeBytes (strBytes (username ++ ":" ++ password)))

/-- A 200 token-endpoint response carrying an access token and an integer
`expires_in`, used to state reuse scenarios. -/
def successResponse (tok : String) (expires_in : Int) : TokenEndpointResult :=
  .response 200 (some [("access_token", .vstr tok), ("expires_in", .vint expires_in)])

/-! ## Helper lemmas -/

lemma needs_refresh_eq_true_iff (st : TokenState) (now : Int) :
    OAuth2Handler.needs_refresh st now = true ↔
      pyTruthy st.access_token = false ∨ st.token_expires = none ∨
        ∃ expires, st.token_expires = some expires ∧ now ≥ expires - 60 := by
  rcases st with ⟨tok, exp⟩
  unfold OAuth2Handler.needs_refresh
  cases exp with
  | none => simp
  | some e =>
    by_cases ht : pyTruthy tok
    · simp [ht, refresh_buffer]
    · simp [ht]

lemma get_headers_calls (st : TokenState) (now : Int) (r : TokenEndpointResult) :
    (OAuth2Handler.get_headers st now r).2.2
      = if OAuth2Handler.needs_refresh st now then 1 else 0 := by
  unfold OAuth2Handler.get_headers
  split
  · rcases hr : OAuth2Handler.refresh_token st now r with ⟨o, st1⟩
    cases o <;> simp [hr]
  · simp

lemma get_headers_no_refresh (st : TokenState) (now : Int) (r : TokenEndpointResult)
    (h : OAuth2Handler.needs_refresh st now = false) :
    OAuth2Handler.get_headers st now r
      = (.header (bearerHeader st.access_token), st, 0) := by
  unfold OAuth2Handler.get_headers
  simp [h]

/-! ## Claim theorems -/

/-- C3 (code bug): on a success response whose body has `access_token` but a
string-valued `expires_in` — a malformed body — `_refresh_token` does not
raise `AuthenticationError`: `timedelta(seconds=...)` raises an uncaught
`TypeError` after `_access_token` has already been overwritten, so the state
is mutated instead of left unchanged. -/
theorem C3_typeerror_escapes_and_mutates :
    OAuth2Handler.refresh_token ⟨none, none⟩ 0
        (.response 200 (some [("access_token", .vstr "tok"), ("expires_in", .vstr "3600")]))
      = (.uncaughtTypeError, ⟨some (.vstr "tok"), none⟩) := by
  decide

/-- C4 (code bug): starting from a fresh handler, one `get_headers` call whose
token endpoint returns 200 with body having `access_token` present and a
string-valued `expires_in` leaves the state with `access_token` set but
`token_expires` absent, violating the set-and-cleared-together invariant. -/
theorem C4_invariant_violated_by_uncaught_typeerror :
    (OAuth2Handler.get_headers ⟨none, none⟩ 0
        (.response 200 (some [("access_token", .vstr "abc"), ("expires_in", .vstr "60")]))).2.1
        = ⟨some (.vstr "abc"), none⟩
    ∧ (OAuth2Handler.get_headers ⟨none, none⟩ 0
        (.response 200 (some [("access_token", .vstr "abc"), ("expires_in", .vstr "60")]))).2.1.access_token
        ≠ none
    ∧ (OAuth2Handler.get_headers ⟨none, none⟩ 0
        (.response 200 (some [("access_token", .vstr "abc"), ("expires_in", .vstr "60")]))).2.1.token_expires
        = none := by
  refine ⟨by decide, by decide, by decide⟩

/-- C7: `invalidate_token` unconditionally clears both fields, never fails,
and is idempotent. -/
theorem C7_invalidate_unconditional_idempotent (st : TokenState) :
    OAuth2Handler.invalidate_token st = ⟨none, none⟩
    ∧ OAuth2Handler.invalidate_token (OAuth2Handler.invalidate_token st)
        = OAuth2Handler.invalidate_token st :=
  ⟨rfl, rfl⟩

/-- C8: after `invalidate_token`, the next `get_headers` call needs a refresh
and performs exactly one token-endpoint network call, whatever the prior state
and whatever the endpoint's outcome. -/
theorem C8_invalidate_forces_one_refresh_call (st : TokenState) (now : Int)
    (r : TokenEndpointResult) :
    OAuth2Handler.needs_refresh (OAuth2Handler.invalidate_token st) now = true
    ∧ (OAuth2Handler.get_headers (OAuth2Handler.invalidate_token st) now r).2.2 = 1 := by
  constructor
  · rfl
  · rw [get_headers_calls]
    simp [OAuth2Handler.invalidate_token, OAuth2Handler.needs_refresh, pyTruthy]

/-- C9: `BasicAuthHandler.get_headers` is the pure function
`"Basic " ++ base64(utf8(username ++ ":" ++ password))`; in particular for
`test_user` / `test_pass` it is exactly `Basic dGVzdF91c2VyOnRlc3RfcGFzcw==`. -/
theorem C9_basic_auth_header (username password : String) :
    BasicAuthHandler.get_headers username password
      = "Basic " ++ String.mk (b64encodeBytes (strBytes (username ++ ":" ++ password)))
    ∧ BasicAuthHandler.get_headers "test_user" "test_pass"
      = "Basic dGVzdF91c2VyOnRlc3RfcGFzcw==" :=
  ⟨rfl, by decide⟩

/-- C10: `_handle_response_errors` returns normally with no side effect below
400; on 401 it first clears the OAuth2 token state and raises
`AuthenticationError` carrying the status code; and every status at or above
400 raises, following the 403/404/422/429/>=500 dispatch with the base
exception for any other such status. -/
theorem C10_response_error_dispatch (st : TokenState) (status : Nat) :
    (status < 400 → FinAutAPIClient.handle_response_errors st status = (none, st))
    ∧ (status = 401 → FinAutAPIClient.handle_response_errors st status
        = (some (.authenticationError 401), ⟨none, none⟩))
    ∧ (400 ≤ status → (FinAutAPIClient.handle_response_errors st status).1 ≠ none)
    ∧ (status = 403 → (FinAutAPIClient.handle_response_errors st status).1
        = some (.permissionDeniedError 403))
    ∧ (status = 404 → (FinAutAPIClient.handle_response_errors st status).1
        = some (.notFoundError 404))
    ∧ (status = 422 → (FinAutAPIClient.handle_response_errors st status).1
        = some (.validationError 422))
    ∧ (status = 429 → (FinAutAPIClient.handle_response_errors st status).1
        = some .rateLimitError)
    ∧ (500 ≤ status → (FinAutAPIClient.handle_response_errors st status).1
        = some (.serverError status))
    ∧ (400 ≤ status → status < 500 →
        status ≠ 401 → status ≠ 403 → status ≠ 404 → status ≠ 422 → status ≠ 429 →
        (FinAutAPIClient.handle_response_errors st status).1
          = some (.finAutAPIException status)) := by
  unfold FinAutAPIClient.handle_response_errors
  refine ⟨fun h => by simp [h], fun h => by subst h; rfl, ?_, ?_, ?_, ?_, ?_, ?_, ?_⟩
  · intro h
    split_ifs <;> (simp; try omega)
  · intro h; subst h; rfl
  · intro h; subst h; rfl
  · intro h; subst h; rfl
  · intro h; subst h; rfl
  · intro h
    split_ifs <;> first | rfl | omega
  · intro h1 h2 h3 h4 h5 h6 h7
    split_ifs <;> first | rfl | omega

/-- C10 witness: concrete instances of the dispatch — 200 returns normally,
401 clears state and raises `AuthenticationError 401`, 418 raises the base
exception, 503 raises `ServerError`. -/
theorem C10_response_error_dispatch_witness :
    FinAutAPIClient.handle_response_errors ⟨some (.vstr "t"), some 100⟩ 200
      = (none, ⟨some (.vstr "t"), some 100⟩)
    ∧ FinAutAPIClient.handle_response_errors ⟨some (.vstr "t"), some 100⟩ 401
      = (some (.authenticationError 401), ⟨none, none⟩)
    ∧ (FinAutAPIClient.handle_response_errors ⟨some (.vstr "t"), some 100⟩ 418).1
      = some (.finAutAPIException 418)
    ∧ (FinAutAPIClient.handle_response_errors ⟨some (.vstr "t"), some 100⟩ 503).1
      = some (.serverError 503) :=
  ⟨(C10_response_error_dispatch ⟨some (.vstr "t"), some 100⟩ 200).1 (by norm_num),
   (C10_response_error_dispatch ⟨some (.vstr "t"), some 100⟩ 401).2.1 rfl,
   (C10_response_error_dispatch ⟨some (.vstr "t"), some 100⟩ 418).2.2.2.2.2.2.2.2
     (by norm_num) (by norm_num) (by norm_num) (by norm_num) (by norm_num)
     (by norm_num) (by norm_num),
   (C10_response_error_dispatch ⟨some (.vstr "t"), some 100⟩ 503).2.2.2.2.2.2.2.1
     (by norm_num)⟩

/-- C2: whenever the token endpoint fails at the transport level or answers
with a non-success HTTP status (any status in [400, 600), which is exactly
when `raise_for_status` raises), `_refresh_token` raises
`AuthenticationError` and returns the state exactly as it was; consequently a
`get_headers` call that attempted that refresh fails the same way with the
state preserved and one network call made. -/
theorem C2_failed_refresh_preserves_state (st : TokenState) (now : Int)
    (r : TokenEndpointResult)
    (hfail : r = .netFailure
      ∨ ∃ status body, r = .response status body ∧ 400 ≤ status ∧ status < 600) :
    OAuth2Handler.refresh_token st now r = (.authError, st)
    ∧ (OAuth2Handler.needs_refresh st now = true →
        OAuth2Handler.get_headers st now r = (.authError, st, 1)) := by
  have hr : OAuth2Handler.refresh_token st now r = (.authError, st) := by
    rcases hfail with h | ⟨status, body, h, h4, h6⟩
    · subst h; rfl
    · subst h
      unfold OAuth2Handler.refresh_token
      have : raise_for_status status = true := by
        unfold raise_for_status
        exact decide_eq_true ⟨h4, h6⟩
      simp [this]
  refine ⟨hr, fun hn => ?_⟩
  unfold OAuth2Handler.get_headers
  simp [hn, hr]

/-- C2 witness: a transport failure on a fresh handler raises
`AuthenticationError`, leaves the empty state empty, and costs one network
call. -/
theorem C2_failed_refresh_preserves_state_witness :
    OAuth2Handler.refresh_token ⟨none, none⟩ 0 .netFailure = (.authError, ⟨none, none⟩)
    ∧ OAuth2Handler.get_headers ⟨none, none⟩ 0 .netFailure
        = (.authError, ⟨none, none⟩, 1) :=
  ⟨(C2_failed_refresh_preserves_state ⟨none, none⟩ 0 .netFailure (Or.inl rfl)).1,
   (C2_failed_refresh_preserves_state ⟨none, none⟩ 0 .netFailure (Or.inl rfl)).2 rfl⟩

/-- C6: when a refresh succeeds at time `now` (success status, body present,
`access_token` present), the stored expiry is `now + 3600` when `expires_in`
is absent and `now + expires_in` when it is an integer. -/
theorem C6_expiry_computation (st : TokenState) (now : Int) (status : Nat)
    (token_data : List (String × PyVal)) (tok : PyVal)
    (hok : raise_for_status status = false)
    (htok : token_data.lookup "access_token" = some tok) :
    (token_data.lookup "expires_in" = none →
      OAuth2Handler.refresh_token st now (.response status (some token_data))
        = (.ok, ⟨some tok, some (now + 3600)⟩))
    ∧ (∀ n : Int, token_data.lookup "expires_in" = some (.vint n) →
      OAuth2Handler.refresh_token st now (.response status (some token_data))
        = (.ok, ⟨some tok, some (now + n)⟩)) := by
  unfold OAuth2Handler.refresh_token
  constructor
  · intro hexp
    simp [hok, htok, hexp]
  · intro n hexp
    simp [hok, htok, hexp]

/-- C6 witness: at time 100, a body with only `access_token` yields expiry
3700, and a body with `expires_in = 1800` yields expiry 1900. -/
theorem C6_expiry_computation_witness :
    OAuth2Handler.refresh_token ⟨none, none⟩ 100
        (.response 200 (some [("access_token", .vstr "tok1")]))
      = (.ok, ⟨some (.vstr "tok1"), some 3700⟩)
    ∧ OAuth2Handler.refresh_token ⟨none, none⟩ 100
        (.response 200 (some [("access_token", .vstr "tok1"), ("expires_in", .vint 1800)]))
      = (.ok, ⟨some (.vstr "tok1"), some 1900⟩) := by
  constructor
  · have h := (C6_expiry_computation ⟨none, none⟩ 100 200
        [("access_token", .vstr "tok1")] (.vstr "tok1") (by decide) (by decide)).1
        (by decide)
    rw [h]
    norm_num
  · have h := (C6_expiry_computation ⟨none, none⟩ 100 200
        [("access_token", .vstr "tok1"), ("expires_in", .vint 1800)] (.vstr "tok1")
        (by decide) (by decide)).2 1800 (by decide)
    rw [h]
    norm_num

/-- C5: whenever `get_headers` returns a header (rather than raising), either
no refresh was needed — and then the stored expiry was strictly more than 60
seconds after `now` at the staleness check — or a refresh was needed and it
succeeded, so the token was just obtained. -/
theorem C5_header_only_when_valid_or_fresh (st : TokenState) (now : Int)
    (r : TokenEndpointResult) (h : String)
    (hret : (OAuth2Handler.get_headers st now r).1 = .header h) :
    (OAuth2Handler.needs_refresh st now = false
      ∧ ∃ expires, st.token_expires = some expires ∧ expires - now > 60)
    ∨ (OAuth2Handler.needs_refresh st now = true
      ∧ (OAuth2Handler.refresh_token st now r).1 = .ok) := by
  by_cases hn : OAuth2Handler.needs_refresh st now
  · right
    refine ⟨hn, ?_⟩
    unfold OAuth2Handler.get_headers at hret
    rcases hr : OAuth2Handler.refresh_token st now r with ⟨o, st1⟩
    rw [hr] at hret
    simp only [hn, if_true] at hret
    cases o with
    | ok => rfl
    | authError => simp at hret
    | uncaughtTypeError => simp at hret
  · left
    have hn' : OAuth2Handler.needs_refresh st now = false := by simpa using hn
    refine ⟨hn', ?_⟩
    rcases st with ⟨tok, exp⟩
    unfold OAuth2Handler.needs_refresh at hn'
    cases exp with
    | none => simp at hn'
    | some e =>
      refine ⟨e, rfl, ?_⟩
      by_cases ht : pyTruthy tok
      · simp [ht, refresh_buffer] at hn'
        omega
      · simp [ht] at hn'

/-- C5 witness: at `now = 0` with a stored token `t` expiring at 1000, a
header is returned and the valid-token disjunct holds (1000 - 0 > 60). -/
theorem C5_header_only_when_valid_or_fresh_witness :
    (OAuth2Handler.needs_refresh ⟨some (.vstr "t"), some 1000⟩ 0 = false
      ∧ ∃ expires, (⟨some (.vstr "t"), some 1000⟩ : TokenState).token_expires
            = some expires ∧ expires - 0 > 60)
    ∨ (OAuth2Handler.needs_refresh ⟨some (.vstr "t"), some 1000⟩ 0 = true
      ∧ (OAuth2Handler.refresh_token ⟨some (.vstr "t"), some 1000⟩ 0 .netFailure).1
          = .ok) :=
  C5_header_only_when_valid_or_fresh ⟨some (.vstr "t"), some 1000⟩ 0 .netFailure
    "Bearer t" (by decide)

/-- C1 counterexample: at `now = 0`, with stored token the empty string and
`expires_at = 1000`, the stored token is not absent and `now` is well before
`expires_at - 60`, yet `get_headers` performs a refresh network call, because
`not self._access_token` is true in Python for a stored empty string. -/
theorem C1_counterexample_empty_token :
    (TokenState.mk (some (.vstr "")) (some 1000)).access_token ≠ none
    ∧ ((0 : Int) < 1000 - 60)
    ∧ (OAuth2Handler.get_headers ⟨some (.vstr ""), some 1000⟩ 0
        (.response 200 (some [("access_token", .vstr "tok1")]))).2.2 = 1 :=
  ⟨by simp, by norm_num, by decide⟩

/-- C1 (amended): for states satisfying the two-fields-together invariant, a
refresh network call happens iff the stored token is absent or falsy (the
empty string) or `now ≥ expires_at - 60` (boundary inclusive); when no call
is made the header comes from the stored token and the state is untouched;
and two consecutive calls inside the validity window, with the refresh
obtaining a non-empty token, return identical header values and make exactly
one network call in total. -/
theorem C1_refresh_iff_falsy_or_stale (st : TokenState) (now t2 : Int)
    (r r2 : TokenEndpointResult) (tok : String) (expires_in : Int)
    (hinv : st.access_token.isNone = st.token_expires.isNone) :
    ((OAuth2Handler.get_headers st now r).2.2 = 1 ↔
        st.access_token = none
        ∨ (∃ v, st.access_token = some v ∧ v.truthy = false)
        ∨ (∃ expires, st.token_expires = some expires ∧ now ≥ expires - 60))
    ∧ ((OAuth2Handler.get_headers st now r).2.2 = 0 →
        OAuth2Handler.get_headers st now r
          = (.header (bearerHeader st.access_token), st, 0))
    ∧ (tok ≠ "" → now ≤ t2 → t2 < now + expires_in - 60 →
        OAuth2Handler.needs_refresh st now = true →
        (OAuth2Handler.get_headers st now (successResponse tok expires_in)).1
            = .header ("Bearer " ++ tok)
          ∧ (OAuth2Handler.get_headers
                ((OAuth2Handler.get_headers st now (successResponse tok expires_in)).2.1)
                t2 r2).1 = .header ("Bearer " ++ tok)
          ∧ (OAuth2Handler.get_headers st now (successResponse tok expires_in)).2.2
              + (OAuth2Handler.get_headers
                  ((OAuth2Handler.get_headers st now (successResponse tok expires_in)).2.1)
                  t2 r2).2.2 = 1) := by
  have hcalls := get_headers_calls st now r
  refine ⟨?_, ?_, ?_⟩
  · rw [hcalls]
    by_cases hn : OAuth2Handler.needs_refresh st now
    · simp only [hn, if_true, true_iff]
      rcases (needs_refresh_eq_true_iff st now).mp hn with hf | he | ⟨e, he, hge⟩
      · cases ha : st.access_token with
        | none => exact Or.inl rfl
        | some v =>
          rw [ha] at hf
          exact Or.inr (Or.inl ⟨v, rfl, by simpa [pyTruthy] using hf⟩)
      · left
        rw [he] at hinv
        cases ha : st.access_token with
        | none => rfl
        | some v => rw [ha] at hinv; simp at hinv
      · exact Or.inr (Or.inr ⟨e, he, hge⟩)
    · have hn' : OAuth2Handler.needs_refresh st now = false := by simpa using hn
      simp only [hn', if_false]
      constructor
      · intro h01; exact absurd h01 (by norm_num)
      · intro hd
        exfalso
        apply hn
        apply (needs_refresh_eq_true_iff st now).mpr
        rcases hd with ha | ⟨v, ha, hv⟩ | ⟨e, he, hge⟩
        · exact Or.inl (by simp [pyTruthy, ha])
        · exact Or.inl (by simp [pyTruthy, ha, hv])
        · exact Or.inr (Or.inr ⟨e, he, hge⟩)
  · intro h0
    rw [hcalls] at h0
    by_cases hn : OAuth2Handler.needs_refresh st now
    · simp [hn] at h0
    · exact get_headers_no_refresh st now r (by simpa using hn)
  · intro htok hle hwin hn
    have hemp : tok.isEmpty = false := by
      rw [Bool.eq_false_iff]
      intro hcontra
      exact htok ((String.isEmpty_iff tok).mp hcontra)
    have hr1 : OAuth2Handler.refresh_token st now (successResponse tok expires_in)
        = (.ok, ⟨some (.vstr tok), some (now + expires_in)⟩) := rfl
    have hc1 : OAuth2Handler.get_headers st now (successResponse tok expires_in)
        = (.header ("Bearer " ++ tok), ⟨some (.vstr tok), some (now + expires_in)⟩, 1) := by
      unfold OAuth2Handler.get_headers
      simp [hn, hr1, bearerHeader, PyVal.pyStr]
    have hn2 : OAuth2Handler.needs_refresh
        ⟨some (.vstr tok), some (now + expires_in)⟩ t2 = false := by
      unfold OAuth2Handler.needs_refresh
      simp [pyTruthy, PyVal.truthy, hemp, refresh_buffer]
      omega
    have hc2 := get_headers_no_refresh
      ⟨some (.vstr tok), some (now + expires_in)⟩ t2 r2 hn2
    rw [hc1]
    simp [hc2, bearerHeader, PyVal.pyStr]

/-- C1 witness for the amended statement: from an empty state at `now = 0`,
the first call (token endpoint answering `tok1`, `expires_in = 3600`)
refreshes and returns `Bearer tok1`; a second call at `t = 10` returns the
identical header; the two calls make exactly one network call in total. -/
theorem C1_refresh_iff_falsy_or_stale_witness :
    (OAuth2Handler.get_headers ⟨none, none⟩ 0 (successResponse "tok1" 3600)).2.2 = 1
    ∧ (OAuth2Handler.get_headers ⟨none, none⟩ 0 (successResponse "tok1" 3600)).1
        = .header "Bearer tok1"
    ∧ (OAuth2Handler.get_headers
          ((OAuth2Handler.get_headers ⟨none, none⟩ 0 (successResponse "tok1" 3600)).2.1)
          10 .netFailure).1 = .header "Bearer tok1"
    ∧ (OAuth2Handler.get_headers ⟨none, none⟩ 0 (successResponse "tok1" 3600)).2.2
        + (OAuth2Handler.get_headers
            ((OAuth2Handler.get_headers ⟨none, none⟩ 0 (successResponse "tok1" 3600)).2.1)
            10 .netFailure).2.2 = 1 := by
  have h := C1_refresh_iff_falsy_or_stale ⟨none, none⟩ 0 10
    (successResponse "tok1" 3600) .netFailure "tok1" 3600 rfl
  have h3 := h.2.2 (by decide) (by norm_num) (by norm_num) rfl
  exact ⟨h.1.mpr (Or.inl rfl), h3.1.trans (by decide), h3.2.1.trans (by decide), h3.2.2⟩
